import Mathlib

/-!
Verification of the OmniRAG document-assistant pipeline (`app.py`).

The development shallowly embeds the pure/state-manipulating core of the
program: the SHA-256 fingerprint (`sha256_of_bytes`, `doc_id_from_source`,
`get_cache_key`), the memoized index store (`get_or_build_index` under
`st.cache_resource`, modelled as explicit cache-state passing keyed on the
non-underscore argument `doc_key`), the PDF loader guard (`load_pdf`), the
translation helper (`translate_text`, with the LLM collaborator passed as a
function and its invocation made observable), the chat-input handler
(history construction and append discipline), and the per-file temporary
file lifecycle of the process handler (filesystem state passed explicitly).
External collaborators (the text splitter, the FAISS build, the LLM, the
PDF parser) are taken as function parameters; everything the program itself
computes is embedded faithfully.
-/

/-! ### SHA-256 (as used by `hashlib.sha256(...).hexdigest()`) -/

/-- Truncation to a 32-bit word. -/
def w32 (x : Nat) : Nat := x % 4294967296

/-- Right rotation of a 32-bit word by `n` bits. -/
def rotr (n x : Nat) : Nat := (x >>> n) ||| w32 (x <<< (32 - n))

/-- SHA-256 Σ0. -/
def bSigma0 (x : Nat) : Nat := rotr 2 x ^^^ rotr 13 x ^^^ rotr 22 x

/-- SHA-256 Σ1. -/
def bSigma1 (x : Nat) : Nat := rotr 6 x ^^^ rotr 11 x ^^^ rotr 25 x

/-- SHA-256 σ0. -/
def sSigma0 (x : Nat) : Nat := rotr 7 x ^^^ rotr 18 x ^^^ (x >>> 3)

/-- SHA-256 σ1. -/
def sSigma1 (x : Nat) : Nat := rotr 17 x ^^^ rotr 19 x ^^^ (x >>> 10)

/-- SHA-256 choice function. -/
def chFn (x y z : Nat) : Nat := (x &&& y) ^^^ ((x ^^^ 4294967295) &&& z)

/-- SHA-256 majority function. -/
def majFn (x y z : Nat) : Nat := (x &&& y) ^^^ (x &&& z) ^^^ (y &&& z)

/-- The 64 SHA-256 round constants of FIPS 180-4, in decimal. -/
def sha256K : List Nat :=
  [1116352408, 1899447441, 3049323471, 3921009573, 961987163, 1508970993,
   2453635748, 2870763221, 3624381080, 310598401, 607225278, 1426881987,
   1925078388, 2162078206, 2614888103, 3248222580, 3835390401, 4022224774,
   264347078, 604807628, 770255983, 1249150122, 1555081692, 1996064986,
   2554220882, 2821834349, 2952996808, 3210313671, 3336571891, 3584528711,
   113926993, 338241895, 666307205, 773529912, 1294757372, 1396182291,
   1695183700, 1986661051, 2177026350, 2456956037, 2730485921, 2820302411,
   3259730800, 3345764771, 3516065817, 3600352804, 4094571909, 275423344,
   430227734, 506948616, 659060556, 883997877, 958139571, 1322822218,
   1537002063, 1747873779, 1955562222, 2024104815, 2227730452, 2361852424,
   2428436474, 2756734187, 3204031479, 3329325298]

/-- The initial SHA-256 hash state of FIPS 180-4, in decimal. -/
def sha256H0 : List Nat :=
  [1779033703, 3144134277, 1013904242, 2773480762,
   1359893119, 2600822924, 528734635, 1541459225]

/-- Big-endian 64-bit encoding of the message bit length. -/
def be64 (n : Nat) : List Nat :=
  [(n >>> 56) % 256, (n >>> 48) % 256, (n >>> 40) % 256, (n >>> 32) % 256,
   (n >>> 24) % 256, (n >>> 16) % 256, (n >>> 8) % 256, n % 256]

/-- SHA-256 padding: `0x80`, zeros to 56 mod 64, then the bit length. -/
def sha256pad (msg : List Nat) : List Nat :=
  msg ++ 0x80 :: List.replicate ((119 - msg.length % 64) % 64) 0 ++ be64 (8 * msg.length)

/-- Group bytes into big-endian 32-bit words. -/
def bytesToWords : List Nat → List Nat
  | a :: b :: c :: d :: rest => (a * 16777216 + b * 65536 + c * 256 + d) :: bytesToWords rest
  | _ => []

/-- Extend the 16 block words to the 64-entry message schedule. -/
def sha256Schedule (ws16 : List Nat) : List Nat :=
  (List.range 48).foldl
    (fun ws _ =>
      let n := ws.length
      ws ++ [w32 (sSigma1 (ws.getD (n - 2) 0) + ws.getD (n - 7) 0 +
                  sSigma0 (ws.getD (n - 15) 0) + ws.getD (n - 16) 0)])
    ws16

/-- One SHA-256 compression round on the eight-word working state. -/
def sha256Round (st : List Nat) (kw : Nat × Nat) : List Nat :=
  match st with
  | [a, b, c, d, e, f, g, h] =>
    let t1 := w32 (h + bSigma1 e + chFn e f g + kw.1 + kw.2)
    let t2 := w32 (bSigma0 a + majFn a b c)
    [w32 (t1 + t2), a, b, c, w32 (d + t1), e, f, g]
  | _ => st

/-- Process one 64-byte block. -/
def sha256Block (hs : List Nat) (block : List Nat) : List Nat :=
  let ws := sha256Schedule (bytesToWords block)
  let st := (sha256K.zip ws).foldl sha256Round hs
  (hs.zip st).map (fun p => w32 (p.1 + p.2))

/-- SHA-256 of a byte sequence, as the eight 32-bit state words. -/
def sha256Words (msg : List Nat) : List Nat :=
  let padded := sha256pad msg
  ((List.range (padded.length / 64)).map
    (fun i => (padded.drop (64 * i)).take 64)).foldl sha256Block sha256H0

/-- A hexadecimal digit character. -/
def hexDigitChar (n : Nat) : Char :=
  if n < 10 then Char.ofNat (48 + n) else Char.ofNat (87 + n)

/-- Lowercase 8-digit hex rendering of a 32-bit word. -/
def wordToHex (n : Nat) : List Char :=
  (List.range 8).map (fun i => hexDigitChar ((n >>> (4 * (7 - i))) % 16))

/-- `hashlib.sha256(b).hexdigest()`: the lowercase hex digest of SHA-256. -/
def sha256_of_bytes (b : List Nat) : String :=
  String.mk ((sha256Words b).map wordToHex).flatten

/-- UTF-8 encoding of one character (Python `str.encode()` is UTF-8). -/
def charUtf8 (c : Char) : List Nat :=
  let n := c.toNat
  if n < 0x80 then [n]
  else if n < 0x800 then [0xc0 + n / 64, 0x80 + n % 64]
  else if n < 0x10000 then [0xe0 + n / 4096, 0x80 + (n / 64) % 64, 0x80 + n % 64]
  else [0xf0 + n / 262144, 0x80 + (n / 4096) % 64, 0x80 + (n / 64) % 64, 0x80 + n % 64]

/-- UTF-8 bytes of a string, the meaning of `s.encode()` in the source. -/
def strBytes (s : String) : List Nat := (s.data.map charUtf8).flatten

/-- `doc_id_from_source` for a string source: digest of its encoded bytes.
For raw bytes the source digests them directly; both cases reduce to
`sha256_of_bytes`. -/
def doc_id_from_source (src : String) : String := sha256_of_bytes (strBytes src)

/-- Lexicographic comparison of character lists by code point, the order
Python uses to compare strings. -/
def lexLe : List Char → List Char → Bool
  | [], _ => true
  | _ :: _, [] => false
  | c :: cs, d :: ds =>
    if c.toNat < d.toNat then true
    else if d.toNat < c.toNat then false
    else lexLe cs ds

/-- The string order used by Python `sorted` on the identifier strings. -/
def strLeP (a b : String) : Prop := lexLe a.data b.data = true

instance : DecidableRel strLeP := fun a b => instDecidableEqBool (lexLe a.data b.data) true

/-- Python `sorted` on strings: a sort of the list under the code-point
lexicographic order. Any sorting algorithm yields this same list because the
order is total and antisymmetric. -/
def pySorted (l : List String) : List String := List.insertionSort strLeP l

/-- `get_cache_key`: join the sorted components with the fixed separator
`||` and digest (`sha256_of_bytes("||".join(sorted(cache_key_components)).encode())`). -/
def get_cache_key (cache_key_components : List String) : String :=
  sha256_of_bytes (strBytes (String.intercalate "||" (pySorted cache_key_components)))

/-! ### Order facts about `lexLe`, needed for the sort -/

theorem lexLe_total : ∀ a b : List Char, lexLe a b = true ∨ lexLe b a = true := by
  intro a
  induction a with
  | nil => intro b; left; rfl
  | cons c cs ih =>
    intro b
    cases b with
    | nil => right; rfl
    | cons d ds =>
      by_cases h1 : c.toNat < d.toNat
      · left; simp [lexLe, h1]
      · by_cases h2 : d.toNat < c.toNat
        · right; simp [lexLe, h2]
        · rcases ih ds with h | h
          · left; simpa [lexLe, h1, h2] using h
          · right; simpa [lexLe, h1, h2] using h

theorem char_eq_of_toNat_eq {c d : Char} (h : c.toNat = d.toNat) : c = d :=
  Char.le_antisymm (Nat.le_of_eq h) (Nat.le_of_eq h.symm)

theorem lexLe_trans :
    ∀ a b c : List Char, lexLe a b = true → lexLe b c = true → lexLe a c = true := by
  intro a
  induction a with
  | nil => intro b c _ _; rfl
  | cons x xs ih =>
    intro b c hab hbc
    cases b with
    | nil => simp [lexLe] at hab
    | cons y ys =>
      cases c with
      | nil => simp [lexLe] at hbc
      | cons z zs =>
        simp only [lexLe] at hab hbc ⊢
        by_cases hxy : x.toNat < y.toNat
        · by_cases hyz : y.toNat < z.toNat
          · simp [show x.toNat < z.toNat by omega]
          · by_cases hzy : z.toNat < y.toNat
            · simp [hyz, hzy] at hbc
            · simp [show x.toNat < z.toNat by omega]
        · by_cases hyx : y.toNat < x.toNat
          · simp [hxy, hyx] at hab
          · by_cases hyz : y.toNat < z.toNat
            · simp [show x.toNat < z.toNat by omega]
            · by_cases hzy : z.toNat < y.toNat
              · simp [hyz, hzy] at hbc
              · have hxz : ¬ x.toNat < z.toNat := by omega
                have hzx : ¬ z.toNat < x.toNat := by omega
                simp only [if_neg hxy, if_neg hyx] at hab
                simp only [if_neg hyz, if_neg hzy] at hbc
                simp only [if_neg hxz, if_neg hzx]
                exact ih ys zs hab hbc

theorem lexLe_antisymm :
    ∀ a b : List Char, lexLe a b = true → lexLe b a = true → a = b := by
  intro a
  induction a with
  | nil =>
    intro b _ hba
    cases b with
    | nil => rfl
    | cons d ds => simp [lexLe] at hba
  | cons c cs ih =>
    intro b hab hba
    cases b with
    | nil => simp [lexLe] at hab
    | cons d ds =>
      simp only [lexLe] at hab hba
      by_cases h1 : c.toNat < d.toNat
      · simp [show ¬ d.toNat < c.toNat by omega, h1] at hba
      · by_cases h2 : d.toNat < c.toNat
        · simp [h1, h2] at hab
        · simp only [if_neg h1, if_neg h2] at hab hba
          have : c = d := char_eq_of_toNat_eq (by omega)
          rw [this, ih ds hab hba]

instance : IsTotal String strLeP :=
  ⟨fun a b => lexLe_total a.data b.data⟩

instance : IsTrans String strLeP :=
  ⟨fun a b c => lexLe_trans a.data b.data c.data⟩

instance : IsAntisymm String strLeP := by
  refine ⟨fun a b hab hba => ?_⟩
  cases a with
  | mk da => cases b with
    | mk db => exact congrArg String.mk (lexLe_antisymm da db hab hba)

/-! ### Data model: documents, the index store, the session -/

/-- A langchain `Document`: extracted text plus provenance. -/
structure Document where
  page_content : String
  source : String
deriving DecidableEq, Repr

/-- The characters Python `str.strip()` removes: exactly the code points for
which `str.isspace()` holds — the ASCII whitespace and separator controls
(U+0009–U+000D, U+001C–U+001F, U+0020), NEL (U+0085), NBSP (U+00A0), Ogham
space (U+1680), the Zs spaces U+2000–U+200A, the line and paragraph
separators U+2028 and U+2029, narrow NBSP (U+202F), medium mathematical
space (U+205F), and ideographic space (U+3000). -/
def pyWhitespace (c : Char) : Bool :=
  let n := c.toNat
  (9 ≤ n && n ≤ 13) || (28 ≤ n && n ≤ 32) || n == 133 || n == 160 ||
  n == 5760 || (8192 ≤ n && n ≤ 8202) || n == 8232 || n == 8233 ||
  n == 8239 || n == 8287 || n == 12288

/-- Python `not s.strip()`: true exactly when every character is whitespace,
i.e. stripping leaves the empty string. -/
def strips_to_empty (s : String) : Bool := s.data.all pyWhitespace

/-- `load_pdf`, given the page documents the external `PyPDFLoader` produced
for the file at `path`: if there are no pages or every page strips to empty
(`not docs or all(not doc.page_content.strip() for doc in docs)`), a single
sentinel document replaces the output. -/
def load_pdf (docs : List Document) (path : String) : List Document :=
  if docs.isEmpty || docs.all (fun doc => strips_to_empty doc.page_content) then
    [{ page_content := "(Empty or scanned PDF — no text found.)", source := path }]
  else docs

/-- A built FAISS index. `FAISS.from_documents` is external; the embedding
records the chunks it was built from and a build serial number so that
distinct builds are distinguishable instances. -/
structure FAISSIndex where
  buildId : Nat
  chunks : List Document
deriving DecidableEq, Repr

/-- The `st.cache_resource` store backing `get_or_build_index`: the map from
`doc_key` to the built index, plus a counter of builds performed, so that
at-most-one-build claims are expressible. -/
structure ResourceCache where
  entries : List (String × FAISSIndex)
  builds : Nat
deriving DecidableEq, Repr

/-- `get_or_build_index` under its `@st.cache_resource` decorator. The
`_docs` argument is underscore-prefixed in the source, so Streamlit keys the
memoization on `doc_key` alone: a hit returns the stored index untouched; a
miss runs the body, which splits the documents via the external
`SPLITTER.split_documents` (passed as `split`), raises
`ValueError("Indexing failed: No text chunks were created from the document.")`
when no chunks result, and otherwise builds and stores a fresh index. -/
def get_or_build_index (split : List Document → List Document)
    (docs : List Document) (doc_key : String) (cache : ResourceCache) :
    Except String (FAISSIndex × ResourceCache) :=
  match cache.entries.lookup doc_key with
  | some index => .ok (index, cache)
  | none =>
    let chunks := split docs
    if chunks.isEmpty then
      .error "Indexing failed: No text chunks were created from the document."
    else
      let index : FAISSIndex := { buildId := cache.builds, chunks := chunks }
      .ok (index, { entries := (doc_key, index) :: cache.entries, builds := cache.builds + 1 })

/-- One conversation turn as stored in `st.session_state.chat_history`. -/
structure ChatTurn where
  role : String
  original_content : String
  display_content : String
deriving DecidableEq, Repr

/-- The session fields the processing action replaces. -/
structure Session where
  current_key : Option String
  chat_history : List ChatTurn
deriving DecidableEq, Repr

/-- The post-extraction part of the `process_btn` handler: compute the cache
key from the collected components, build or fetch the index, and on failure
show `st.error(f"Indexing failed: {e}")` and `st.stop()` without touching the
session; on success replace the session (summary generation and chat-chain
creation involve only external collaborators and the freshly built index). -/
def process_btn_handler (split : List Document → List Document)
    (all_docs : List Document) (cache_key_components : List String)
    (sess : Session) (cache : ResourceCache) :
    Except String Unit × Session × ResourceCache :=
  if all_docs.isEmpty then
    (.error "No valid content could be processed.", sess, cache)
  else
    let full_key := get_cache_key cache_key_components
    match get_or_build_index split all_docs full_key cache with
    | .error e => (.error ("Indexing failed: " ++ e), sess, cache)
    | .ok (_, cache2) =>
      (.ok (), { current_key := some full_key, chat_history := [] }, cache2)

/-! ### Translation and the chat-input handler -/

/-- The translation prompt `translate_text` builds for the LLM. -/
def translationPrompt (target_lang_name text : String) : String :=
  "Translate the following text accurately to " ++ target_lang_name ++
  ". Provide only the translated text, without any additional commentary or explanations.\n\nText to translate:\n---\n" ++ text

/-- `translate_text`: identity when the target language is English, otherwise
one LLM invocation on the translation prompt. The LLM collaborator is passed
as a fallible function; the boolean in the result records whether it was
invoked. -/
def translate_text (llm : String → Except String String)
    (text target_lang_name : String) : Except String (String × Bool) :=
  if target_lang_name == "English" then .ok (text, false)
  else (llm (translationPrompt target_lang_name text)).map (fun t => (t, true))

/-- Line 440 of the source: the history handed to the retrieval chain, one
`(role, original_content)` pair per recorded turn, in order. -/
def model_history (chat_history : List ChatTurn) : List (String × String) :=
  chat_history.map (fun turn => (turn.role, turn.original_content))

/-- The chat-input handler: build `model_history`, invoke the chain, translate
the answer for display when the UI language is not English, and only then
append the user and assistant turns. A failure in the chain or in translation
propagates (Streamlit surfaces the exception) before any append executes, so
the handler returns the history unchanged in that case. -/
def chat_input_handler (chain : String → List (String × String) → Except String String)
    (llm : String → Except String String) (language : String)
    (user_q : String) (chat_history : List ChatTurn) :
    Except String Unit × List ChatTurn :=
  match chain user_q (model_history chat_history) with
  | .error e => (.error e, chat_history)
  | .ok original_answer =>
    let displayE : Except String String :=
      if language != "English" then
        (translate_text llm original_answer language).map Prod.fst
      else .ok original_answer
    match displayE with
    | .error e => (.error e, chat_history)
    | .ok display_answer =>
      (.ok (),
        chat_history ++
          [{ role := "user", original_content := user_q, display_content := user_q },
           { role := "assistant", original_content := original_answer,
             display_content := display_answer }])

/-! ### Temporary-file lifecycle of the per-file extraction loop -/

/-- One iteration of the upload loop in the `process_btn` handler, with the
set of on-disk temporary files as explicit state. The handler writes the
upload to a `NamedTemporaryFile(delete=False, ...)`, runs the format-specific
loader, and only then calls `os.unlink(tmp_path)`; an exception from the
loader propagates to the surrounding `try` before the unlink line runs. -/
def process_uploaded_file (loader : String → Except String (List Document))
    (tmp_path : String) (disk : List String) :
    Except String (List Document) × List String :=
  let disk1 := tmp_path :: disk
  match loader tmp_path with
  | .error e => (.error e, disk1)
  | .ok docs => (.ok docs, disk1.erase tmp_path)

/-! ### Shared helper lemmas -/

theorem pySorted_perm_eq (l₁ l₂ : List String) (h : l₁.Perm l₂) :
    pySorted l₁ = pySorted l₂ :=
  List.eq_of_perm_of_sorted
    ((List.perm_insertionSort strLeP l₁).trans
      (h.trans (List.perm_insertionSort strLeP l₂).symm))
    (List.sorted_insertionSort strLeP l₁) (List.sorted_insertionSort strLeP l₂)

/-! ### The claims -/

/-- C1: Fingerprint order-independence. For every list of source identifier
strings and every permutation of it, `get_cache_key` returns the same digest
string, because the components are sorted before joining and hashing. -/
theorem get_cache_key_perm_invariant (l₁ l₂ : List String) (h : l₁.Perm l₂) :
    get_cache_key l₁ = get_cache_key l₂ := by
  unfold get_cache_key
  rw [pySorted_perm_eq l₁ l₂ h]

/-- Witness for C1 at a concrete permutation. -/
theorem get_cache_key_perm_invariant_witness :
    List.Perm ["b", "a"] ["a", "b"] ∧
      get_cache_key ["b", "a"] = get_cache_key ["a", "b"] :=
  ⟨by decide, get_cache_key_perm_invariant ["b", "a"] ["a", "b"] (by decide)⟩

/-- C10: Fingerprint separator collision. The single identifier `a||b` and
the pair of identifiers `a`, `b` are distinct identifier sets, yet they join
to the same separator-delimited string and therefore hash to the same
fingerprint. -/
theorem get_cache_key_separator_collision :
    get_cache_key ["a||b"] = get_cache_key ["a", "b"] ∧
      "a" ∈ (["a", "b"] : List String) ∧ "a" ∉ (["a||b"] : List String) := by
  decide

/-- C4 counterexample: the fingerprint is not a function of the underlying
set of identifiers. The list with the identifier `a` twice (as produced by
two uploads with identical byte content) hashes `a||a`, while the singleton
list hashes `a`, and the two SHA-256 digests differ. -/
theorem get_cache_key_duplicate_counterexample :
    get_cache_key ["a", "a"] ≠ get_cache_key ["a"] := by
  decide

/-- C4 amended: the fingerprint depends only on the multiset of source
identifiers (it is invariant under permutation), but not only on their set:
a duplicated identifier changes the digest. A single processing action still
performs at most one index build. -/
theorem get_cache_key_multiset_semantics (l₁ l₂ : List String) (h : l₁.Perm l₂)
    (split : List Document → List Document) (docs : List Document)
    (comps : List String) (sess : Session) (cache : ResourceCache) :
    get_cache_key l₁ = get_cache_key l₂ ∧
      get_cache_key ["a", "a"] ≠ get_cache_key ["a"] ∧
      (process_btn_handler split docs comps sess cache).2.2.builds ≤ cache.builds + 1 := by
  refine ⟨by unfold get_cache_key; rw [pySorted_perm_eq l₁ l₂ h], by decide, ?_⟩
  unfold process_btn_handler
  by_cases hd : docs.isEmpty
  · simp [hd]
  · simp only [hd, Bool.false_eq_true, if_false]
    unfold get_or_build_index
    cases hl : cache.entries.lookup (get_cache_key comps) with
    | some index => simp
    | none =>
      by_cases hc : (split docs).isEmpty
      · simp [hc]
      · simp [hc]

/-- Witness for C4 (amended) at concrete inputs. -/
theorem get_cache_key_multiset_semantics_witness :
    get_cache_key ["y", "x"] = get_cache_key ["x", "y"] ∧
      get_cache_key ["a", "a"] ≠ get_cache_key ["a"] ∧
      (process_btn_handler (fun d => d) [{ page_content := "t", source := "s" }] ["x"]
          { current_key := none, chat_history := [] }
          { entries := [], builds := 0 }).2.2.builds ≤ 0 + 1 :=
  get_cache_key_multiset_semantics ["y", "x"] ["x", "y"] (by decide)
    (fun d => d) [{ page_content := "t", source := "s" }] ["x"]
    { current_key := none, chat_history := [] } { entries := [], builds := 0 }

/-- C7: Translation identity. For every text and every LLM collaborator,
`translate_text` with target language English returns the text unchanged and
does not invoke the LLM (the boolean invocation flag is false). -/
theorem translate_text_identity (llm : String → Except String String) (text : String) :
    translate_text llm text "English" = .ok (text, false) := rfl

/-- C2: Index-cache idempotence. If a call to `get_or_build_index` for key
`doc_key` succeeded, returning index `index` and leaving the cache in state
`cache2`, then any second call with that key — whatever splitter and document
list it is given — returns the very same index instance and leaves the cache
(including the build counter) untouched: at most one build occurs per
fingerprint for the process lifetime. -/
theorem get_or_build_index_idempotent
    (split split2 : List Document → List Document) (docs docs2 : List Document)
    (doc_key : String) (cache cache2 : ResourceCache) (index : FAISSIndex)
    (h : get_or_build_index split docs doc_key cache = .ok (index, cache2)) :
    get_or_build_index split2 docs2 doc_key cache2 = .ok (index, cache2) := by
  unfold get_or_build_index at h ⊢
  cases hl : cache.entries.lookup doc_key with
  | some idx =>
    rw [hl] at h
    simp only [Except.ok.injEq, Prod.mk.injEq] at h
    obtain ⟨h1, h2⟩ := h
    subst h1
    subst h2
    simp [hl]
  | none =>
    rw [hl] at h
    by_cases hc : (split docs).isEmpty
    · simp [hc] at h
    · simp only [hc, Bool.false_eq_true, if_false, Except.ok.injEq, Prod.mk.injEq] at h
      obtain ⟨h1, h2⟩ := h
      subst h1
      subst h2
      simp [List.lookup]

/-- Witness for C2: a concrete first build followed by a second call with a
different splitter and different documents. -/
theorem get_or_build_index_idempotent_witness :
    get_or_build_index (fun d => d) [Document.mk "hello world" "s"] "k"
        (ResourceCache.mk [] 0) =
      .ok (FAISSIndex.mk 0 [Document.mk "hello world" "s"],
           ResourceCache.mk [("k", FAISSIndex.mk 0 [Document.mk "hello world" "s"])] 1) ∧
    get_or_build_index (fun _ => []) [] "k"
        (ResourceCache.mk [("k", FAISSIndex.mk 0 [Document.mk "hello world" "s"])] 1) =
      .ok (FAISSIndex.mk 0 [Document.mk "hello world" "s"],
           ResourceCache.mk [("k", FAISSIndex.mk 0 [Document.mk "hello world" "s"])] 1) :=
  ⟨rfl, get_or_build_index_idempotent (fun d => d) (fun _ => [])
    [Document.mk "hello world" "s"] [] "k" (ResourceCache.mk [] 0) _ _ rfl⟩

/-- C3: Empty-chunk guard. When splitting the documents yields no chunks and
no index is cached for the fingerprint, `get_or_build_index` fails with the
no-chunks `ValueError` instead of building an index, and the processing
action surfaces `st.error(f"Indexing failed: {e}")` and stops, leaving the
session and the cache exactly as they were. -/
theorem empty_chunks_abort
    (split : List Document → List Document) (all_docs : List Document)
    (comps : List String) (sess : Session) (cache : ResourceCache)
    (hsplit : split all_docs = [])
    (hfresh : cache.entries.lookup (get_cache_key comps) = none)
    (hdocs : all_docs ≠ []) :
    get_or_build_index split all_docs (get_cache_key comps) cache =
      .error "Indexing failed: No text chunks were created from the document." ∧
    process_btn_handler split all_docs comps sess cache =
      (.error "Indexing failed: Indexing failed: No text chunks were created from the document.",
       sess, cache) := by
  have hbuild : get_or_build_index split all_docs (get_cache_key comps) cache =
      .error "Indexing failed: No text chunks were created from the document." := by
    unfold get_or_build_index
    rw [hfresh, hsplit]
    rfl
  refine ⟨hbuild, ?_⟩
  unfold process_btn_handler
  rw [if_neg (by simpa [List.isEmpty_iff] using hdocs)]
  simp only [hbuild]
  rfl

/-- Witness for C3: an all-whitespace document whose splitting produces no
chunks, processed against an empty cache. -/
theorem empty_chunks_abort_witness :
    get_or_build_index (fun _ => []) [{ page_content := "   ", source := "w.docx" }]
        (get_cache_key ["w"]) { entries := [], builds := 0 } =
      .error "Indexing failed: No text chunks were created from the document." ∧
    process_btn_handler (fun _ => []) [{ page_content := "   ", source := "w.docx" }] ["w"]
        { current_key := none, chat_history := [] } { entries := [], builds := 0 } =
      (.error "Indexing failed: Indexing failed: No text chunks were created from the document.",
       { current_key := none, chat_history := [] }, { entries := [], builds := 0 }) :=
  empty_chunks_abort (fun _ => []) [{ page_content := "   ", source := "w.docx" }] ["w"]
    { current_key := none, chat_history := [] } { entries := [], builds := 0 }
    rfl rfl (by decide)

/-- C5: Conversation history sent to the responder. The history handed to the
retrieval chain has exactly one `(role, text)` pair per recorded turn, in
chronological order, and each pair carries the turn's original-language
content (never the display field); moreover the chat handler consults the
chain only at the question paired with exactly this history. -/
theorem model_history_sent_to_responder (chat_history : List ChatTurn) :
    (model_history chat_history).length = chat_history.length ∧
    (∀ i : Nat, (model_history chat_history)[i]? =
      (chat_history[i]?).map (fun turn => (turn.role, turn.original_content))) ∧
    (∀ (chain chain2 : String → List (String × String) → Except String String)
        (llm : String → Except String String) (language user_q : String),
      chain user_q (model_history chat_history) = chain2 user_q (model_history chat_history) →
      chat_input_handler chain llm language user_q chat_history =
        chat_input_handler chain2 llm language user_q chat_history) := by
  refine ⟨by simp [model_history], fun i => by simp [model_history], ?_⟩
  intro chain chain2 llm language user_q h
  unfold chat_input_handler
  rw [h]

/-- Witness for C5: one prior turn whose original and display texts differ
sends exactly one pair, carrying the original text; two chains that agree on
that one-pair history make the handler behave identically. -/
theorem model_history_sent_to_responder_witness :
    (model_history [ChatTurn.mk "user" "hola" "hello"]).length = 1 ∧
    (model_history [ChatTurn.mk "user" "hola" "hello"])[0]? = some ("user", "hola") ∧
    chat_input_handler (fun _ h => .ok (toString h.length)) (fun p => .ok p) "English" "q"
        [ChatTurn.mk "user" "hola" "hello"] =
      chat_input_handler (fun _ _ => .ok "1") (fun p => .ok p) "English" "q"
        [ChatTurn.mk "user" "hola" "hello"] := by
  obtain ⟨h1, h2, h3⟩ := model_history_sent_to_responder [ChatTurn.mk "user" "hola" "hello"]
  refine ⟨h1, ?_, h3 (fun _ h => .ok (toString h.length)) (fun _ _ => .ok "1")
    (fun p => .ok p) "English" "q" rfl⟩
  rw [h2 0]
  rfl

/-- C6: Responder-error atomicity. If the chain invocation or the display
translation fails, the chat handler leaves the recorded turn sequence
unchanged; turns are appended — the user turn and the assistant turn, in that
order — only when both the answer and its display text were produced. -/
theorem chat_input_handler_error_atomicity
    (chain : String → List (String × String) → Except String String)
    (llm : String → Except String String) (language user_q : String)
    (chat_history : List ChatTurn) :
    (∀ e, (chat_input_handler chain llm language user_q chat_history).1 = .error e →
      (chat_input_handler chain llm language user_q chat_history).2 = chat_history) ∧
    (∀ u, (chat_input_handler chain llm language user_q chat_history).1 = .ok u →
      ∃ original_answer display_answer,
        (chat_input_handler chain llm language user_q chat_history).2 =
          chat_history ++
            [{ role := "user", original_content := user_q, display_content := user_q },
             { role := "assistant", original_content := original_answer,
               display_content := display_answer }]) := by
  unfold chat_input_handler
  cases hc : chain user_q (model_history chat_history) with
  | error e => exact ⟨fun _ _ => by trivial, fun u hu => by simp at hu⟩
  | ok original_answer =>
    cases hd : (if language != "English" then
        (translate_text llm original_answer language).map Prod.fst
      else .ok original_answer) with
    | error e =>
      simp only [hd]
      exact ⟨fun _ _ => by trivial, fun u hu => by simp at hu⟩
    | ok display_answer =>
      simp only [hd]
      exact ⟨fun e he => by simp at he, fun u _ => ⟨original_answer, display_answer, rfl⟩⟩

/-- Witness for C6: a failing chain leaves a one-turn history untouched. -/
theorem chat_input_handler_error_atomicity_witness :
    (chat_input_handler (fun _ _ => .error "ResponderError") (fun p => .ok p) "English" "q"
        [{ role := "user", original_content := "a", display_content := "a" }]).2 =
      [{ role := "user", original_content := "a", display_content := "a" }] :=
  (chat_input_handler_error_atomicity (fun _ _ => .error "ResponderError") (fun p => .ok p)
      "English" "q" [{ role := "user", original_content := "a", display_content := "a" }]).1
    "ResponderError" rfl

/-- C8: Blank-PDF sentinel. If extraction produced no pages, or pages that
all strip to empty, `load_pdf` returns exactly one sentinel document stating
that no text was found — never an empty sequence; if some page has non-blank
text, the per-page documents are returned as-is. -/
theorem load_pdf_blank_sentinel (docs : List Document) (path : String) :
    ((docs = [] ∨ ∀ d ∈ docs, strips_to_empty d.page_content = true) →
      load_pdf docs path =
        [{ page_content := "(Empty or scanned PDF — no text found.)", source := path }]) ∧
    ((∃ d ∈ docs, strips_to_empty d.page_content = false) → load_pdf docs path = docs) := by
  constructor
  · intro h
    unfold load_pdf
    rw [if_pos]
    rcases h with h | h
    · subst h; rfl
    · simp only [Bool.or_eq_true, List.all_eq_true]
      exact Or.inr h
  · rintro ⟨d, hd, hne⟩
    unfold load_pdf
    rw [if_neg]
    simp only [Bool.or_eq_true, List.isEmpty_iff, List.all_eq_true, not_or]
    refine ⟨?_, ?_⟩
    · rintro rfl
      cases hd
    · intro hall
      rw [hall d hd] at hne
      cases hne

/-- Witness for C8: a page list whose pages hold only whitespace — one page
of ASCII spaces and one of just a non-breaking space U+00A0, which Python
`strip` also removes — collapses to the sentinel, and a list with one
non-blank page passes through unchanged. -/
theorem load_pdf_blank_sentinel_witness :
    load_pdf [{ page_content := "  ", source := "f.pdf" },
              { page_content := "\xa0", source := "f.pdf" }] "f.pdf" =
      [{ page_content := "(Empty or scanned PDF — no text found.)", source := "f.pdf" }] ∧
    load_pdf [{ page_content := " ", source := "g.pdf" },
              { page_content := "text", source := "g.pdf" }] "g.pdf" =
      [{ page_content := " ", source := "g.pdf" },
       { page_content := "text", source := "g.pdf" }] :=
  ⟨(load_pdf_blank_sentinel [{ page_content := "  ", source := "f.pdf" },
      { page_content := "\xa0", source := "f.pdf" }] "f.pdf").1
      (Or.inr (by decide)),
   (load_pdf_blank_sentinel [{ page_content := " ", source := "g.pdf" },
       { page_content := "text", source := "g.pdf" }] "g.pdf").2
      ⟨{ page_content := "text", source := "g.pdf" }, by decide, by decide⟩⟩

/-- C9 counterexample: cleanup of the temporary file is not guaranteed on
every path. With a loader that raises (as `PyPDFLoader` does on a corrupt
file), the handler reaches the surrounding `except` before the
`os.unlink(tmp_path)` line, and the temporary file written for the upload is
still on disk afterwards. -/
theorem process_uploaded_file_leak_counterexample :
    (process_uploaded_file (fun _ => .error "PdfReadError: EOF marker not found") "tmp0" []).2
      ≠ [] := by
  decide

/-- C9 amended: the temporary file is deleted immediately after a successful
extraction, but when the loader raises, the unlink is skipped and the file
remains on disk. -/
theorem process_uploaded_file_cleanup
    (loader : String → Except String (List Document)) (tmp_path : String)
    (disk : List String) :
    (∀ docs, loader tmp_path = .ok docs →
      process_uploaded_file loader tmp_path disk = (.ok docs, disk)) ∧
    (∀ e, loader tmp_path = .error e →
      process_uploaded_file loader tmp_path disk = (.error e, tmp_path :: disk)) := by
  constructor
  · intro docs hok
    unfold process_uploaded_file
    rw [hok]
    simp
  · intro e herr
    unfold process_uploaded_file
    rw [herr]

/-- Witness for C9 (amended): a successful load restores the disk state; a
failing load leaves the temporary file behind. -/
theorem process_uploaded_file_cleanup_witness :
    process_uploaded_file (fun _ => .ok [{ page_content := "t", source := "s" }]) "tmp1" [] =
      (.ok [{ page_content := "t", source := "s" }], []) ∧
    process_uploaded_file (fun _ => .error "boom") "tmp1" [] = (.error "boom", ["tmp1"]) :=
  ⟨(process_uploaded_file_cleanup (fun _ => .ok [{ page_content := "t", source := "s" }])
      "tmp1" []).1 [{ page_content := "t", source := "s" }] rfl,
   (process_uploaded_file_cleanup (fun _ => .error "boom") "tmp1" []).2 "boom" rfl⟩
